import Mathlib

/-
Verification of flask_pyquery.py: a shallow embedding of the module in Lean 4,
with theorems checking the natural-language specification against the code.

External effects (filesystem, module import, HTML parsing, the user-supplied
renderer function, signal delivery) are passed in explicitly as environments,
so every definition is executable. Python dicts are association lists; Python
exceptions become an error sum type carried in Except.
-/

namespace FlaskPyQuery

/-- A Python dict modelled as an association list keyed by strings; lookup
returns the binding for the key (Python dicts never hold a key twice, which
corresponds to the key list being Nodup). -/
abbrev Dict (V : Type) : Type := List (String × V)

/-- Python subscript read d[k] as a total function: the bound value, if any. -/
def Dict.get {V : Type} : Dict V → String → Option V
  | [], _ => none
  | (k1, v1) :: rest, k => if k1 = k then some v1 else Dict.get rest k

/-- Python subscript write d[k] = v: overwrite the binding in place when the
key is present, else append a new binding (dict insertion order). -/
def Dict.set {V : Type} : Dict V → String → V → Dict V
  | [], k, v => [(k, v)]
  | (k1, v1) :: rest, k, v =>
      if k1 = k then (k, v) :: rest else (k1, v1) :: Dict.set rest k v

/-- Python d.update(other): every binding of other is written into d,
overwriting on key collision. -/
def Dict.update {V : Type} (d other : Dict V) : Dict V :=
  List.foldl (fun acc p => Dict.set acc p.1 p.2) d other

/-- Python d.setdefault(k, v): bind k to v only when k is absent. -/
def Dict.setdefault {V : Type} (d : Dict V) (k : String) (v : V) : Dict V :=
  match Dict.get d k with
  | some _ => d
  | none => Dict.set d k v

/-- The key list of a dict, in binding order. -/
def Dict.keys {V : Type} (d : Dict V) : List String :=
  List.map Prod.fst d

/-- Python exceptions raised (or propagated) by flask_pyquery, by kind. -/
inductive PQError : Type
  | runtimeError (msg : String)
  | importError (msg : String)
  | attributeError (msg : String)
  | fileNotFound (msg : String)
  | templateError (msg : String)
  | ioError (msg : String)
  | rendererError (msg : String)
  | keyError (msg : String)
deriving DecidableEq

/-- Equality of Except outcomes is decidable when both components are; used to
evaluate concrete runs of the embedded functions. -/
instance {ε α : Type} [DecidableEq ε] [DecidableEq α] :
    DecidableEq (Except ε α) := fun x y =>
  match x, y with
  | Except.ok a, Except.ok b =>
      if h : a = b then Decidable.isTrue (by rw [h])
      else Decidable.isFalse (fun hc => h (Except.ok.inj hc))
  | Except.error a, Except.error b =>
      if h : a = b then Decidable.isTrue (by rw [h])
      else Decidable.isFalse (fun hc => h (Except.error.inj hc))
  | Except.ok _, Except.error _ => Decidable.isFalse (fun hc => Except.noConfusion hc)
  | Except.error _, Except.ok _ => Decidable.isFalse (fun hc => Except.noConfusion hc)

/-- The value of a template_folder attribute: Flask accepts a single path
string or a list/tuple of path strings (the isinstance check on line 117). -/
inductive TFolder : Type
  | single (s : String)
  | multi (l : List String)
deriving DecidableEq

/-- Python truthiness of a template_folder value: the empty string and the
empty list are falsy, everything else truthy (the `if bp_tf:` on line 125). -/
def TFolder.truthy : TFolder → Bool
  | .single s => s != ""
  | .multi l => !l.isEmpty

/-- An element node of the parsed HTML tree, as seen through pyquery and lxml:
only its tag name and its serialized form matter to this module. -/
structure Element : Type where
  tag : String
  serialized : String
deriving DecidableEq

/-- A renderer function is user-supplied and external; it is identified by an
abstract handle, applied through the RenderEnv environment below. -/
abbrev Renderer : Type := String

/-- The imported renderer module: Python getattr with default None, plus the
string form used when the module is interpolated into an error message. -/
structure RendererModule : Type where
  getattr : String → Option Renderer
  moduleRepr : String

/-- The view of the PyQueryTemplates instance stored in the extensions
registry of the application, as read back by get_template (line 95): after
init_app its renderer_module is always present. -/
structure PQExt : Type where
  renderer_module : RendererModule
  module_path : String

/-- The kwargs dict built by _create_lookup (lines 113-115) and threaded into
every Template: its only binding is the resolved doctype string. -/
structure LookupKwargs : Type where
  doctype : String
deriving DecidableEq

/-- Template (lines 65-70): a file path paired with a renderer and the fixed
render-time options. -/
structure Template : Type where
  path : String
  renderer : Renderer
  kwargs : LookupKwargs
deriving DecidableEq

/-- TemplateLookup (lines 87-92). The app back-reference is used in the source
only to read the extensions registry; here the PQExt view is passed to
get_template explicitly instead. -/
structure TemplateLookup : Type where
  directories : List String
  kwargs : LookupKwargs
deriving DecidableEq

/-- The filesystem, as queried through os.path. -/
structure FS : Type where
  pathExists : String → Bool
  isFile : String → Bool
  isDir : String → Bool

/-- A registered blueprint: its root path and optional template folder. -/
structure Blueprint : Type where
  root_path : String
  template_folder : Option TFolder

/-- The Flask application state read by this module: identity and paths,
registered blueprints in registration order (the values of the blueprints
dict), the jinja environment globals, the contributions of the registered
context processors (each modelled by the dict it returns), and the config
mapping. -/
structure App : Type where
  import_name : String
  root_path : String
  template_folder : TFolder
  blueprints : List Blueprint
  jinja_globals : Dict String
  context_processors : List (Dict String)
  config : Dict String

/-- The mutable fields of a PyQueryTemplates instance (lines 31-33): all three
start as None in the constructor. -/
structure PQState : Type where
  app : Option App
  module_path : Option String
  renderer_module : Option RendererModule

/-- The external world needed by Template.render: reading the template file
(None models an I/O failure), parsing the source with pyquery, and applying
the user-supplied renderer function (which may itself raise). -/
structure RenderEnv : Type where
  readFile : String → Option String
  parseHtml : String → List Element
  applyRenderer : Renderer → List Element → Dict String → Except String (List Element)

/-- A template_rendered signal emission (line 148): the sender app is implied;
the payload is the template object and the final context. -/
structure Signal : Type where
  template : Template
  context : Dict String
deriving DecidableEq

/-- os.path.join for the case exercised here: a directory joined with a
relative name. -/
def joinPath (a b : String) : String := a ++ "/" ++ b

/-- lxml.html.tostring with the doctype keyword: the doctype declaration, a
newline, then the serialized root element. -/
def tostring (root : Element) (doctype : String) : String :=
  doctype ++ "\n" ++ root.serialized

/-- Template.render (lines 72-84): read the file, parse it, apply the
renderer, require exactly one root element tagged html (the or on line 79
short-circuits, so the tag of the first element is only inspected when the
length is one), then serialize with the configured doctype. -/
def Template.render (t : Template) (env : RenderEnv) (context : Dict String) :
    Except PQError String :=
  match env.readFile t.path with
  | none => Except.error (PQError.ioError t.path)
  | some source =>
    match env.applyRenderer t.renderer (env.parseHtml source) context with
    | Except.error e => Except.error (PQError.rendererError e)
    | Except.ok doc =>
      match doc with
      | [root] =>
        if root.tag != "html" then
          Except.error (PQError.templateError
            ("There should only be one root document " ++
             "and it should be an <html> tag"))
        else
          Except.ok (tostring root t.kwargs.doctype)
      | _ =>
        Except.error (PQError.templateError
          ("There should only be one root document " ++
           "and it should be an <html> tag"))

/-- TemplateLookup.get_template (lines 94-107): resolve the renderer
attribute first (getattr with default None, raising AttributeError when it is
None; at that point the local variable func is None, so the formatted message
interpolates the text None, not the requested name), then scan the
directories in order for the first one holding the file. -/
def TemplateLookup.get_template (lk : TemplateLookup) (pq : PQExt) (fs : FS)
    (template_name : String) : Except PQError Template :=
  match pq.renderer_module.getattr template_name with
  | none =>
      Except.error (PQError.attributeError
        ("No such renderer None in " ++ pq.renderer_module.moduleRepr))
  | some func =>
    let filename := template_name ++ ".html"
    match List.find? (fun directory =>
        fs.pathExists (joinPath directory filename) &&
        fs.isFile (joinPath directory filename)) lk.directories with
    | some directory => Except.ok ⟨joinPath directory filename, func, lk.kwargs⟩
    | none =>
        Except.error (PQError.fileNotFound
          ("No such template \x27" ++ filename ++ "\x27"))

/-- The class attribute PyQueryTemplates.doctype_names (lines 26-28). -/
def doctype_names : Dict String := [("html5", "<!DOCTYPE html>")]

/-- doctype_names.get(doctype, doctype) on line 114: table value when the
key is known, the configured string verbatim otherwise. -/
def resolveDoctype (doctype : String) : String :=
  (Dict.get doctype_names doctype).getD doctype

/-- The per-blueprint contribution of the loop on lines 122-130: nothing for
a blueprint with a falsy template_folder, else its folder or folders joined
against its own root path. -/
def bpResolved (blueprint : Blueprint) : List String :=
  match blueprint.template_folder with
  | none => []
  | some bp_tf =>
    if TFolder.truthy bp_tf then
      match bp_tf with
      | TFolder.multi l => List.map (fun tf => joinPath blueprint.root_path tf) l
      | TFolder.single s => [joinPath blueprint.root_path s]
    else []

/-- A template_folder value resolved against a root path, one path per
declared folder, in declared order. -/
def TFolder.resolved (tf : TFolder) (root : String) : List String :=
  match tf with
  | TFolder.multi l => List.map (fun f => joinPath root f) l
  | TFolder.single s => [joinPath root s]

/-- _create_lookup (lines 110-133): read the configured doctype (a missing
config key would be a KeyError), resolve it through the alias table, collect
the application folder or folders joined to the application root, extend with
every blueprint folder joined to the blueprint root in registration order,
keep only directories, and build the lookup. -/
def _create_lookup (fs : FS) (pq : PQExt) (app : App) :
    Except PQError TemplateLookup :=
  match Dict.get app.config "PYQUERY_DOCTYPE" with
  | none => Except.error (PQError.keyError "PYQUERY_DOCTYPE")
  | some doctype =>
    let kwargs : LookupKwargs := ⟨resolveDoctype doctype⟩
    let paths : List String :=
      match app.template_folder with
      | TFolder.multi l => List.map (fun tf => joinPath app.root_path tf) l
      | TFolder.single s => [joinPath app.root_path s]
    let paths : List String :=
      List.foldl (fun ps blueprint =>
        match blueprint.template_folder with
        | none => ps
        | some bp_tf =>
          if TFolder.truthy bp_tf then
            match bp_tf with
            | TFolder.multi l =>
                ps ++ List.map (fun tf => joinPath blueprint.root_path tf) l
            | TFolder.single s => ps ++ [joinPath blueprint.root_path s]
          else ps) paths app.blueprints
    let paths : List String := List.filter fs.isDir paths
    Except.ok ⟨paths, kwargs⟩

/-- _lookup (lines 136-139): the app._pyquery_lookup slot (initialized to
None by init_app) is passed and returned explicitly; a cached lookup object
is always truthy, so the slot is rebuilt only from None. -/
def _lookup (fs : FS) (pq : PQExt) (app : App)
    (pyquery_lookup : Option TemplateLookup) :
    Except PQError (TemplateLookup × Option TemplateLookup) :=
  match pyquery_lookup with
  | some lk => Except.ok (lk, some lk)
  | none =>
    match _create_lookup fs pq app with
    | Except.error e => Except.error e
    | Except.ok lk => Except.ok (lk, some lk)

/-- Flask app.update_template_context, called on line 145. Modelled from the
documented Flask behavior: the dict each registered context processor returns
is merged into the context in registration order, and then the bindings that
were present before the call are written back, so they win over the
processors. -/
def updateTemplateContext (context : Dict String)
    (processors : List (Dict String)) : Dict String :=
  let orig := context
  let context := List.foldl Dict.update context processors
  Dict.update context orig

/-- The full context merge performed by _render on lines 144-145: the caller
context updated with the jinja environment globals (globals overwrite), then
update_template_context applied on top. -/
def renderMerge (context : Dict String) (globals : Dict String)
    (processors : List (Dict String)) : Dict String :=
  updateTemplateContext (Dict.update context globals) processors

/-- _render (lines 142-151): merge the context, render, and on success fire
the template_rendered signal with the template and the merged context; the
bare except/raise re-raises unchanged, so an error yields no signal. The
second component is the list of signals emitted by the call. -/
def _render (env : RenderEnv) (template : Template) (context : Dict String)
    (app : App) : Except PQError String × List Signal :=
  let context := Dict.update context app.jinja_globals
  let context := updateTemplateContext context app.context_processors
  match Template.render template env context with
  | Except.ok rv => (Except.ok rv, [⟨template, context⟩])
  | Except.error e => (Except.error e, [])

/-- render_template (lines 154-163) for the active application: obtain the
cached lookup (building it on first use), resolve the template, render.
Returns the outcome, the emitted signals, and the new lookup slot. -/
def render_template (env : RenderEnv) (fs : FS) (pq : PQExt) (app : App)
    (pyquery_lookup : Option TemplateLookup) (template_name : String)
    (context : Dict String) :
    Except PQError String × List Signal × Option TemplateLookup :=
  match _lookup fs pq app pyquery_lookup with
  | Except.error e => (Except.error e, [], pyquery_lookup)
  | Except.ok (lk, slot) =>
    match TemplateLookup.get_template lk pq fs template_name with
    | Except.error e => (Except.error e, [], slot)
    | Except.ok t =>
      let r := _render env t context app
      (r.1, r.2, slot)

/-- PyQueryTemplates.init_app (lines 38-58). The imports argument models
importlib.import_module (None is an ImportError). Returns the instance state,
the application (its config setdefaulted on success; the extensions
registration and the reset of the _pyquery_lookup slot to None are carried by
the explicit PQExt and slot arguments of the functions above), and the
outcome. The guard on line 43 fires whenever self.app is already set, before
any assignment, so a failed call changes nothing. -/
def PQState.init_app (s : PQState) (imports : String → Option RendererModule)
    (app : App) (module_path : String) :
    PQState × App × Except PQError Unit :=
  if s.app.isSome then
    (s, app, Except.error (PQError.runtimeError
      ("Cannot call init_app when app argument was " ++
       "provided to PyQueryTemplates constructor.")))
  else
    let s := { s with app := some app, module_path := some module_path }
    match imports (app.import_name ++ "." ++ module_path) with
    | none =>
        (s, app, Except.error (PQError.importError
          (app.import_name ++ "." ++ module_path)))
    | some m =>
        let s := { s with renderer_module := some m }
        let app := { app with
          config := Dict.setdefault app.config "PYQUERY_DOCTYPE" "html5" }
        (s, app, Except.ok ())

/-- The PyQueryTemplates constructor (lines 30-36): fields start as None and
init_app runs only when an app was passed. -/
def PyQueryTemplates.new (imports : String → Option RendererModule)
    (app : Option App) (module_path : String) :
    PQState × Option App × Except PQError Unit :=
  let s : PQState := ⟨none, none, none⟩
  match app with
  | none => (s, none, Except.ok ())
  | some a =>
    let r := PQState.init_app s imports a module_path
    (r.1, some r.2.1, r.2.2)

/-- A concrete renderer module exposing one renderer named index. -/
def sampleModule : RendererModule :=
  { getattr := fun name => if name = "index" then some "index" else none,
    moduleRepr := "<module myapp.renderer>" }

/-- A concrete import environment resolving myapp.renderer. -/
def sampleImports : String → Option RendererModule :=
  fun m => if m = "myapp.renderer" then some sampleModule else none

/-- The extension view built from the sample module. -/
def samplePQ : PQExt := ⟨sampleModule, "renderer"⟩

/-- A concrete filesystem: index.html exists in the application template
directory and in the blueprint template directory. -/
def sampleFS : FS :=
  { pathExists := fun p =>
      p = "/app/templates/index.html" || p = "/app/bp/templates/index.html",
    isFile := fun p =>
      p = "/app/templates/index.html" || p = "/app/bp/templates/index.html",
    isDir := fun p => p = "/app/templates" || p = "/app/bp/templates" }

/-- A concrete blueprint with its own template folder. -/
def sampleBlueprint : Blueprint := ⟨"/app/bp", some (TFolder.single "templates")⟩

/-- A concrete application with one blueprint, one template global binding
for the key k, no context processors, and the doctype configured. -/
def sampleApp : App :=
  { import_name := "myapp", root_path := "/app",
    template_folder := TFolder.single "templates",
    blueprints := [sampleBlueprint],
    jinja_globals := [("k", "globalv")],
    context_processors := [],
    config := [("PYQUERY_DOCTYPE", "html5")] }

/-- The sample application with an empty config, before any default is set. -/
def sampleAppNoCfg : App := { sampleApp with config := [] }

/-- The lookup _create_lookup builds for the sample application. -/
def sampleLookup : TemplateLookup :=
  ⟨["/app/templates", "/app/bp/templates"], ⟨"<!DOCTYPE html>"⟩⟩

/-- A concrete render environment: reading and parsing always succeed and the
renderer returns its input tree, a single html root. -/
def sampleEnv : RenderEnv :=
  { readFile := fun _ => some "<html></html>",
    parseHtml := fun _ => [⟨"html", "BODY"⟩],
    applyRenderer := fun _ doc _ => Except.ok doc }

/-- The template resolved for index in the sample setup. -/
def sampleTemplate : Template :=
  ⟨"/app/templates/index.html", "index", ⟨"<!DOCTYPE html>"⟩⟩

/-- An extension instance state already bound to the sample application. -/
def sampleBoundState : PQState := ⟨some sampleApp, some "renderer", none⟩

/-- A freshly constructed, unbound extension instance state. -/
def sampleFreshState : PQState := ⟨none, none, none⟩

theorem Dict.get_set_self {V : Type} (d : Dict V) (k : String) (v : V) :
    Dict.get (Dict.set d k v) k = some v := by
  induction d with
  | nil => simp [Dict.set, Dict.get]
  | cons p rest ih =>
      obtain ⟨k1, v1⟩ := p
      by_cases h : k1 = k
      · simp [Dict.set, h, Dict.get]
      · simp [Dict.set, h, Dict.get, ih]

theorem Dict.get_set_ne {V : Type} (d : Dict V) (k k2 : String) (v : V)
    (h : k ≠ k2) : Dict.get (Dict.set d k v) k2 = Dict.get d k2 := by
  induction d with
  | nil => simp [Dict.set, Dict.get, h]
  | cons p rest ih =>
      obtain ⟨k1, v1⟩ := p
      by_cases h1 : k1 = k
      · subst h1
        simp [Dict.set, Dict.get, h]
      · simp [Dict.set, h1, Dict.get, ih]

theorem Dict.mem_keys_set {V : Type} (d : Dict V) (k k2 : String) (v : V) :
    k2 ∈ Dict.keys (Dict.set d k v) ↔ k2 = k ∨ k2 ∈ Dict.keys d := by
  induction d with
  | nil => simp [Dict.set, Dict.keys]
  | cons p rest ih =>
      obtain ⟨k1, v1⟩ := p
      by_cases h : k1 = k
      · subst h
        simp [Dict.set, Dict.keys]
        try tauto
      · simp [Dict.set, h, Dict.keys] at ih ⊢
        try tauto

theorem Dict.keys_nodup_set {V : Type} (d : Dict V) (k : String) (v : V)
    (h : (Dict.keys d).Nodup) : (Dict.keys (Dict.set d k v)).Nodup := by
  induction d with
  | nil => simp [Dict.set, Dict.keys]
  | cons p rest ih =>
      obtain ⟨k1, v1⟩ := p
      rw [show Dict.keys ((k1, v1) :: rest) = k1 :: Dict.keys rest from rfl,
        List.nodup_cons] at h
      by_cases hk : k1 = k
      · subst hk
        have hs : Dict.set ((k1, v1) :: rest) k1 v = (k1, v) :: rest := by
          simp [Dict.set]
        rw [hs, show Dict.keys ((k1, v) :: rest) = k1 :: Dict.keys rest from rfl,
          List.nodup_cons]
        exact ⟨h.1, h.2⟩
      · have hs : Dict.set ((k1, v1) :: rest) k v = (k1, v1) :: Dict.set rest k v := by
          simp [Dict.set, hk]
        rw [hs, show Dict.keys ((k1, v1) :: Dict.set rest k v)
            = k1 :: Dict.keys (Dict.set rest k v) from rfl, List.nodup_cons]
        refine ⟨fun hmem => ?_, ih h.2⟩
        rcases (Dict.mem_keys_set rest k k1 v).mp hmem with h1 | h1
        · exact hk h1
        · exact h.1 h1

theorem Dict.update_cons {V : Type} (d : Dict V) (p : String × V) (o : Dict V) :
    Dict.update d (p :: o) = Dict.update (Dict.set d p.1 p.2) o := rfl

theorem Dict.get_update_not_mem {V : Type} (d o : Dict V) (k : String)
    (h : k ∉ Dict.keys o) : Dict.get (Dict.update d o) k = Dict.get d k := by
  induction o generalizing d with
  | nil => rfl
  | cons p o ih =>
      obtain ⟨k1, v1⟩ := p
      simp [Dict.keys] at h
      rw [Dict.update_cons, ih _ (by simpa [Dict.keys] using h.2),
        Dict.get_set_ne _ _ _ _ (fun he => h.1 he.symm)]

theorem Dict.get_update_of_get {V : Type} (d o : Dict V) (k : String) (v : V)
    (hnd : (Dict.keys o).Nodup) (h : Dict.get o k = some v) :
    Dict.get (Dict.update d o) k = some v := by
  induction o generalizing d with
  | nil => simp [Dict.get] at h
  | cons p o ih =>
      obtain ⟨k1, v1⟩ := p
      simp [Dict.keys, List.nodup_cons] at hnd
      rw [Dict.update_cons]
      by_cases hk : k1 = k
      · subst hk
        simp [Dict.get] at h
        rw [Dict.get_update_not_mem _ _ _ (by simpa [Dict.keys] using hnd.1),
          Dict.get_set_self, h]
      · simp [Dict.get, hk] at h
        exact ih _ (by simpa [Dict.keys] using hnd.2) h

theorem Dict.keys_nodup_update {V : Type} (d o : Dict V)
    (h : (Dict.keys d).Nodup) : (Dict.keys (Dict.update d o)).Nodup := by
  induction o generalizing d with
  | nil => exact h
  | cons p o ih =>
      rw [Dict.update_cons]
      exact ih _ (Dict.keys_nodup_set _ _ _ h)

theorem find_append_first {α : Type} (p : α → Bool) (pre : List α) (d : α)
    (post : List α) (hpre : ∀ x ∈ pre, ¬p x = true) (hd : p d = true) :
    List.find? p (pre ++ d :: post) = some d := by
  induction pre with
  | nil => simpa using List.find?_cons_of_pos post hd
  | cons a pre ih =>
      rw [List.cons_append,
        List.find?_cons_of_neg _ (hpre a (List.mem_cons_self a pre))]
      exact ih (fun x hx => hpre x (List.mem_cons_of_mem a hx))

theorem create_lookup_loop (bps : List Blueprint) (init : List String) :
    List.foldl (fun ps blueprint =>
      match blueprint.template_folder with
      | none => ps
      | some bp_tf =>
        if TFolder.truthy bp_tf then
          match bp_tf with
          | TFolder.multi l =>
              ps ++ List.map (fun tf => joinPath blueprint.root_path tf) l
          | TFolder.single s => ps ++ [joinPath blueprint.root_path s]
        else ps) init bps = init ++ List.flatMap bps bpResolved := by
  induction bps generalizing init with
  | nil => simp
  | cons bp bps ih =>
      rw [List.foldl_cons, ih, List.flatMap_cons]
      have hstep : (match bp.template_folder with
          | none => init
          | some bp_tf =>
            if TFolder.truthy bp_tf then
              match bp_tf with
              | TFolder.multi l =>
                  init ++ List.map (fun tf => joinPath bp.root_path tf) l
              | TFolder.single s => init ++ [joinPath bp.root_path s]
            else init) = init ++ bpResolved bp := by
        unfold bpResolved
        match htf : bp.template_folder with
        | none => simp
        | some bp_tf =>
          by_cases ht : TFolder.truthy bp_tf = true
          · match bp_tf with
            | TFolder.multi l => simp [ht]
            | TFolder.single s => simp [ht]
          · simp [ht]
      rw [hstep, List.append_assoc]

/-- C2: when the file read and the renderer application succeed, Template.render
raises the structural TemplateError exactly when the renderer result does not
consist of one single root element tagged html; with exactly one html-tagged
root no structural error is raised and serialized output is returned. -/
theorem render_root_structural (env : RenderEnv) (t : Template)
    (context : Dict String) (src : String) (doc : List Element)
    (h1 : env.readFile t.path = some src)
    (h2 : env.applyRenderer t.renderer (env.parseHtml src) context
      = Except.ok doc) :
    ((∃ msg, Template.render t env context
        = Except.error (PQError.templateError msg))
      ↔ ¬(doc.length = 1 ∧ Option.map Element.tag doc.head? = some "html"))
    ∧ ((doc.length = 1 ∧ Option.map Element.tag doc.head? = some "html") →
        ∃ out, Template.render t env context = Except.ok out) := by
  simp only [Template.render, h1, h2]
  match doc with
  | [] => simp
  | [root] =>
      by_cases hr : root.tag = "html"
      · simp [hr]
      · simp [hr]
  | a :: b :: rest => simp

/-- C2 witness: in the sample environment the renderer returns a single html
root and rendering succeeds. -/
theorem render_root_structural_witness :
    ∃ out, Template.render sampleTemplate sampleEnv [] = Except.ok out :=
  (render_root_structural sampleEnv sampleTemplate [] "<html></html>"
    [⟨"html", "BODY"⟩] rfl rfl).2 (by decide)

/-- C9: _render emits the template_rendered signal exactly when the render
succeeds, the signal carries the template object and the merged context, and
an error from Template.render is returned to the caller unchanged, with no
signal emitted. -/
theorem render_signal_on_success (env : RenderEnv) (t : Template)
    (context : Dict String) (app : App) :
    ((_render env t context app).2 ≠ [] ↔
        ∃ rv, (_render env t context app).1 = Except.ok rv)
    ∧ (∀ sig ∈ (_render env t context app).2,
        sig.template = t ∧
        sig.context = renderMerge context app.jinja_globals app.context_processors)
    ∧ (∀ e, ((_render env t context app).1 = Except.error e ↔
        Template.render t env
          (renderMerge context app.jinja_globals app.context_processors)
          = Except.error e)) := by
  have key : _render env t context app =
      (match Template.render t env
          (renderMerge context app.jinja_globals app.context_processors) with
       | Except.ok rv => (Except.ok rv,
          [⟨t, renderMerge context app.jinja_globals app.context_processors⟩])
       | Except.error e => (Except.error e, [])) := rfl
  rw [key]
  cases hres : Template.render t env
      (renderMerge context app.jinja_globals app.context_processors) with
  | ok rv => simp [hres]
  | error e => simp [hres]

/-- C9 witness: a successful sample render emits a signal. -/
theorem render_signal_on_success_witness :
    (_render sampleEnv sampleTemplate [] sampleApp).2 ≠ [] :=
  (render_signal_on_success sampleEnv sampleTemplate [] sampleApp).1.mpr
    ⟨"<!DOCTYPE html>\nBODY", by decide⟩

/-- C1 counterexample: the claim says the caller-supplied value wins over a
template global on key collision; with caller binding k to callerv and the
application global binding k to globalv, the merged context built by _render
(and carried by the emitted signal) binds k to globalv, not callerv. -/
theorem renderMerge_caller_overridden_cex :
    Dict.get (renderMerge [("k", "callerv")] [("k", "globalv")] []) "k"
      = some "globalv"
    ∧ (some "globalv" : Option String) ≠ some "callerv"
    ∧ List.map (fun sig => Dict.get sig.context "k")
        (_render sampleEnv sampleTemplate [("k", "callerv")] sampleApp).2
      = [some "globalv"] := by
  refine ⟨by decide, by decide, by decide⟩

/-- C1 amended: on key collision the merge of _render gives the application
template globals precedence over the caller-supplied context (and over the
context processors): for duplicate-free dicts, any key bound in the globals
keeps the global value in the final merged context; and every emitted signal
carries exactly that merged context. -/
theorem renderMerge_globals_precedence (caller globals : Dict String)
    (processors : List (Dict String)) (k v : String) (env : RenderEnv)
    (t : Template) (app : App) :
    ((Dict.keys caller).Nodup → (Dict.keys globals).Nodup →
      Dict.get globals k = some v →
      Dict.get (renderMerge caller globals processors) k = some v)
    ∧ (∀ sig ∈ (_render env t caller app).2,
        sig.context = renderMerge caller app.jinja_globals app.context_processors) := by
  constructor
  · intro h1 h2 h3
    show Dict.get (Dict.update
      (List.foldl Dict.update (Dict.update caller globals) processors)
      (Dict.update caller globals)) k = some v
    exact Dict.get_update_of_get _ _ _ _ (Dict.keys_nodup_update _ _ h1)
      (Dict.get_update_of_get _ _ _ _ h2 h3)
  · have key : _render env t caller app =
        (match Template.render t env
            (renderMerge caller app.jinja_globals app.context_processors) with
         | Except.ok rv => (Except.ok rv,
            [⟨t, renderMerge caller app.jinja_globals app.context_processors⟩])
         | Except.error e => (Except.error e, [])) := rfl
    rw [key]
    cases Template.render t env
        (renderMerge caller app.jinja_globals app.context_processors) with
    | ok rv => simp
    | error e => simp

/-- C1 witness for the amended statement: at a concrete collision the final
merged context holds the global value. -/
theorem renderMerge_globals_precedence_witness :
    Dict.get (renderMerge [("k", "callerv")] [("k", "globalv")] []) "k"
      = some "globalv" :=
  (renderMerge_globals_precedence [("k", "callerv")] [("k", "globalv")] []
    "k" "globalv" sampleEnv sampleTemplate sampleApp).1
    (by decide) (by decide) (by decide)

/-- C3: get_template raises the no-such-renderer AttributeError exactly when
the renderer module has no attribute with the template name; given the
attribute exists, it raises the no-such-template FileNotFoundError exactly
when no search directory holds the file name.html; when both the renderer
attribute and the file exist, it returns a Template. -/
theorem get_template_resolution (lk : TemplateLookup) (pq : PQExt) (fs : FS)
    (name : String) :
    ((∃ msg, TemplateLookup.get_template lk pq fs name
        = Except.error (PQError.attributeError msg))
      ↔ pq.renderer_module.getattr name = none)
    ∧ ((pq.renderer_module.getattr name).isSome →
        ((∃ msg, TemplateLookup.get_template lk pq fs name
            = Except.error (PQError.fileNotFound msg))
          ↔ ∀ dir ∈ lk.directories,
              ¬((fs.pathExists (joinPath dir (name ++ ".html")) &&
                 fs.isFile (joinPath dir (name ++ ".html"))) = true)))
    ∧ ((pq.renderer_module.getattr name).isSome →
        (∃ dir ∈ lk.directories,
            (fs.pathExists (joinPath dir (name ++ ".html")) &&
             fs.isFile (joinPath dir (name ++ ".html"))) = true) →
        ∃ t, TemplateLookup.get_template lk pq fs name = Except.ok t) := by
  cases hattr : pq.renderer_module.getattr name with
  | none =>
      refine ⟨?_, ?_, ?_⟩
      · simp only [TemplateLookup.get_template, hattr]
        exact ⟨fun _ => trivial, fun _ => ⟨_, rfl⟩⟩
      · intro hs
        simp at hs
      · intro hs
        simp at hs
  | some f =>
      have hgt : TemplateLookup.get_template lk pq fs name =
          (match List.find? (fun directory =>
              fs.pathExists (joinPath directory (name ++ ".html")) &&
              fs.isFile (joinPath directory (name ++ ".html"))) lk.directories with
           | some directory =>
              Except.ok ⟨joinPath directory (name ++ ".html"), f, lk.kwargs⟩
           | none =>
              Except.error (PQError.fileNotFound
                ("No such template \x27" ++ (name ++ ".html") ++ "\x27"))) := by
        simp only [TemplateLookup.get_template, hattr]
      refine ⟨?_, ?_, ?_⟩
      · rw [hgt]
        cases hfind : List.find? (fun directory =>
            fs.pathExists (joinPath directory (name ++ ".html")) &&
            fs.isFile (joinPath directory (name ++ ".html"))) lk.directories with
        | some dir => simp [hattr]
        | none => simp [hattr]
      · intro _
        rw [hgt]
        cases hfind : List.find? (fun directory =>
            fs.pathExists (joinPath directory (name ++ ".html")) &&
            fs.isFile (joinPath directory (name ++ ".html"))) lk.directories with
        | some dir =>
            simp only []
            constructor
            · rintro ⟨msg, hmsg⟩
              exact absurd hmsg (by simp)
            · intro hall
              exact absurd (List.find?_some hfind)
                (by simpa using hall dir (List.mem_of_find?_eq_some hfind))
        | none =>
            constructor
            · intro _
              simpa using List.find?_eq_none.mp hfind
            · intro _
              exact ⟨_, rfl⟩
      · intro _ hex
        obtain ⟨dir, hmem, hpred⟩ := hex
        rw [hgt]
        cases hfind : List.find? (fun directory =>
            fs.pathExists (joinPath directory (name ++ ".html")) &&
            fs.isFile (joinPath directory (name ++ ".html"))) lk.directories with
        | some d2 => exact ⟨_, rfl⟩
        | none =>
            exact absurd hpred (by simpa using List.find?_eq_none.mp hfind dir hmem)

/-- C3 witness: in the sample setup a name with no renderer attribute raises
the AttributeError and the name index, whose renderer and file both exist,
resolves to a Template. -/
theorem get_template_resolution_witness :
    (∃ msg, TemplateLookup.get_template sampleLookup samplePQ sampleFS "missing"
        = Except.error (PQError.attributeError msg))
    ∧ (∃ t, TemplateLookup.get_template sampleLookup samplePQ sampleFS "index"
        = Except.ok t) :=
  ⟨(get_template_resolution sampleLookup samplePQ sampleFS "missing").1.mpr
      (by decide),
   (get_template_resolution sampleLookup samplePQ sampleFS "index").2.2
      (by decide) ⟨"/app/templates", by decide, by decide⟩⟩

/-- C4: when the search list is pre ++ d :: post, no directory of pre holds
name.html and d does, get_template returns the Template whose path points
into d: the directories are scanned in list order and the first match wins. -/
theorem get_template_first_match (pre post : List String) (d : String)
    (kwargs : LookupKwargs) (pq : PQExt) (fs : FS) (name : String)
    (f : Renderer)
    (hf : pq.renderer_module.getattr name = some f)
    (hpre : ∀ d2 ∈ pre, ¬((fs.pathExists (joinPath d2 (name ++ ".html")) &&
        fs.isFile (joinPath d2 (name ++ ".html"))) = true))
    (hd : (fs.pathExists (joinPath d (name ++ ".html")) &&
        fs.isFile (joinPath d (name ++ ".html"))) = true) :
    TemplateLookup.get_template ⟨pre ++ d :: post, kwargs⟩ pq fs name
      = Except.ok ⟨joinPath d (name ++ ".html"), f, kwargs⟩ := by
  have hfind := find_append_first (fun directory =>
      fs.pathExists (joinPath directory (name ++ ".html")) &&
      fs.isFile (joinPath directory (name ++ ".html"))) pre d post hpre hd
  simp only [TemplateLookup.get_template, hf, hfind]

/-- C4 witness: index.html exists in both the application and the blueprint
template directories; with a non-matching directory first, the returned
template path points into the first matching directory in order. -/
theorem get_template_first_match_witness :
    TemplateLookup.get_template
        ⟨["/none", "/app/templates", "/app/bp/templates"], ⟨"<!DOCTYPE html>"⟩⟩
        samplePQ sampleFS "index"
      = Except.ok ⟨joinPath "/app/templates" ("index" ++ ".html"), "index",
          ⟨"<!DOCTYPE html>"⟩⟩ :=
  get_template_first_match ["/none"] ["/app/bp/templates"] "/app/templates"
    ⟨"<!DOCTYPE html>"⟩ samplePQ sampleFS "index" "index" (by decide)
    (by decide) (by decide)

/-- C10: the renderer attribute is resolved before any directory is searched,
so whenever the attribute is missing the AttributeError is raised regardless
of the filesystem, in particular also when the template file is missing too;
and its message interpolates the failed lookup result None, independent of
the requested name. -/
theorem get_template_renderer_checked_first (lk : TemplateLookup) (pq : PQExt)
    (fs : FS) (name : String)
    (h : pq.renderer_module.getattr name = none) :
    TemplateLookup.get_template lk pq fs name =
      Except.error (PQError.attributeError
        ("No such renderer None in " ++ pq.renderer_module.moduleRepr)) := by
  simp only [TemplateLookup.get_template, h]

/-- C10 witness: the name missing has neither a renderer attribute nor a file
in any sample directory; the error raised is the AttributeError whose message
reads No such renderer None, not mentioning the name missing. -/
theorem get_template_renderer_checked_first_witness :
    TemplateLookup.get_template sampleLookup samplePQ sampleFS "missing"
      = Except.error (PQError.attributeError
          ("No such renderer None in " ++ sampleModule.moduleRepr)) :=
  get_template_renderer_checked_first sampleLookup samplePQ sampleFS "missing"
    (by decide)

/-- C5: with the doctype option configured, _create_lookup succeeds and its
directory list is exactly the application folders resolved against the
application root, in declared order, followed by every blueprint folder
resolved against its own blueprint root, in registration order (blueprints
with no template folder contributing nothing), with every path that is not an
existing directory removed. -/
theorem create_lookup_search_order (fs : FS) (pq : PQExt) (app : App)
    (d : String) (h : Dict.get app.config "PYQUERY_DOCTYPE" = some d) :
    ∃ lk, _create_lookup fs pq app = Except.ok lk ∧
      lk.directories = List.filter fs.isDir
        (TFolder.resolved app.template_folder app.root_path
          ++ List.flatMap app.blueprints bpResolved) := by
  simp only [_create_lookup, h]
  refine ⟨_, rfl, ?_⟩
  rw [create_lookup_loop]
  rfl

/-- C5 witness: for the sample application with one blueprint the computed
search list matches the specified order. -/
theorem create_lookup_search_order_witness :
    ∃ lk, _create_lookup sampleFS samplePQ sampleApp = Except.ok lk ∧
      lk.directories = List.filter sampleFS.isDir
        (TFolder.resolved sampleApp.template_folder sampleApp.root_path
          ++ List.flatMap sampleApp.blueprints bpResolved) :=
  create_lookup_search_order sampleFS samplePQ sampleApp "html5" (by decide)

/-- C6: a configured doctype found in the alias table is replaced by the
literal table value (html5 maps to the html5 doctype declaration), any other
string is used verbatim, init_app defaults the unset option to html5, and
_create_lookup stores the resolved doctype in the kwargs of the lookup. -/
theorem doctype_selection (d cfgv mp : String) (fs : FS) (pq : PQExt)
    (app : App) (s : PQState) (imports : String → Option RendererModule)
    (m : RendererModule) :
    (∀ v, Dict.get doctype_names d = some v → resolveDoctype d = v)
    ∧ resolveDoctype "html5" = "<!DOCTYPE html>"
    ∧ (Dict.get doctype_names d = none → resolveDoctype d = d)
    ∧ (s.app = none → imports (app.import_name ++ "." ++ mp) = some m →
        Dict.get app.config "PYQUERY_DOCTYPE" = none →
        Dict.get (PQState.init_app s imports app mp).2.1.config
          "PYQUERY_DOCTYPE" = some "html5")
    ∧ (Dict.get app.config "PYQUERY_DOCTYPE" = some cfgv →
        ∃ lk, _create_lookup fs pq app = Except.ok lk ∧
          lk.kwargs.doctype = resolveDoctype cfgv) := by
  refine ⟨?_, ?_, ?_, ?_, ?_⟩
  · intro v hv
    unfold resolveDoctype
    rw [hv]
    rfl
  · rfl
  · intro hn
    unfold resolveDoctype
    rw [hn]
    rfl
  · intro h0 h1 h2
    simp [PQState.init_app, h0, h1, Dict.setdefault, h2, Dict.get_set_self]
  · intro hc
    simp only [_create_lookup, hc]
    exact ⟨_, rfl, rfl⟩

/-- C6 witness: an unrecognized doctype string passes through verbatim, an
application with no configured doctype gets html5 at init_app, and the sample
lookup carries the resolved html5 doctype declaration. -/
theorem doctype_selection_witness :
    resolveDoctype "custom-doctype" = "custom-doctype"
    ∧ Dict.get (PQState.init_app sampleFreshState sampleImports sampleAppNoCfg
        "renderer").2.1.config "PYQUERY_DOCTYPE" = some "html5"
    ∧ ∃ lk, _create_lookup sampleFS samplePQ sampleApp = Except.ok lk ∧
        lk.kwargs.doctype = resolveDoctype "html5" :=
  ⟨(doctype_selection "custom-doctype" "html5" "renderer" sampleFS samplePQ
      sampleApp sampleFreshState sampleImports sampleModule).2.2.1 (by decide),
   (doctype_selection "custom-doctype" "html5" "renderer" sampleFS samplePQ
      sampleAppNoCfg sampleFreshState sampleImports sampleModule).2.2.2.1
      rfl rfl rfl,
   (doctype_selection "custom-doctype" "html5" "renderer" sampleFS samplePQ
      sampleApp sampleFreshState sampleImports sampleModule).2.2.2.2
      (by decide)⟩

/-- C7: once an application is bound (self.app set, whether through the
constructor or a prior init_app), every further init_app call fails with the
RuntimeError and leaves the instance state, hence the bound application,
module path and renderer module, unchanged, and also leaves the passed
application untouched; and binding through the constructor does set the
bound application. -/
theorem init_app_rebind_fails (s : PQState)
    (imports : String → Option RendererModule) (app app2 : App)
    (mp mp2 : String) :
    (s.app.isSome →
      (PQState.init_app s imports app mp).1 = s
      ∧ (PQState.init_app s imports app mp).2.1 = app
      ∧ ∃ msg, (PQState.init_app s imports app mp).2.2
          = Except.error (PQError.runtimeError msg))
    ∧ ((PyQueryTemplates.new imports (some app2) mp2).1).app = some app2 := by
  constructor
  · intro h
    simp [PQState.init_app, h]
  · simp only [PyQueryTemplates.new, PQState.init_app]
    cases himp : imports (app2.import_name ++ "." ++ mp2) with
    | none => simp [himp]
    | some m => simp [himp]

/-- C7 witness: on an already-bound sample instance a second init_app call
returns the RuntimeError and the unchanged state. -/
theorem init_app_rebind_fails_witness :
    (PQState.init_app sampleBoundState sampleImports sampleApp "renderer").1
        = sampleBoundState
    ∧ ∃ msg, (PQState.init_app sampleBoundState sampleImports sampleApp
        "renderer").2.2 = Except.error (PQError.runtimeError msg) :=
  ⟨((init_app_rebind_fails sampleBoundState sampleImports sampleApp sampleApp
      "renderer" "renderer").1 (by decide)).1,
   ((init_app_rebind_fails sampleBoundState sampleImports sampleApp sampleApp
      "renderer" "renderer").1 (by decide)).2.2⟩

/-- C8: with a cached lookup in the slot, _lookup returns that same object
and the unchanged slot without calling _create_lookup (the result does not
depend on what _create_lookup would build); from an empty slot it builds the
lookup with _create_lookup, caches it, and a repeated call then returns the
identical cached object, so the search order is stable across calls. -/
theorem lookup_lazy_cached (fs : FS) (pq : PQExt) (app : App)
    (lk0 : TemplateLookup) :
    _lookup fs pq app (some lk0) = Except.ok (lk0, some lk0)
    ∧ (∀ lk slot, _lookup fs pq app none = Except.ok (lk, slot) →
        slot = some lk ∧ _create_lookup fs pq app = Except.ok lk
        ∧ _lookup fs pq app slot = Except.ok (lk, slot)) := by
  constructor
  · rfl
  · intro lk slot h
    unfold _lookup at h
    cases hc : _create_lookup fs pq app with
    | error e =>
        rw [hc] at h
        exact absurd h (by simp)
    | ok lkc =>
        rw [hc] at h
        have h2 := Except.ok.inj h
        have hlk : lkc = lk := congrArg Prod.fst h2
        have hslot : some lkc = slot := congrArg Prod.snd h2
        subst hlk
        subst hslot
        exact ⟨rfl, rfl, rfl⟩

/-- C8 witness: the first sample lookup builds and caches the lookup object,
and a further call with the filled slot returns the very same object. -/
theorem lookup_lazy_cached_witness :
    _create_lookup sampleFS samplePQ sampleApp = Except.ok sampleLookup
    ∧ _lookup sampleFS samplePQ sampleApp (some sampleLookup)
        = Except.ok (sampleLookup, some sampleLookup) :=
  ⟨((lookup_lazy_cached sampleFS samplePQ sampleApp sampleLookup).2
      sampleLookup (some sampleLookup) (by decide)).2.1,
   (lookup_lazy_cached sampleFS samplePQ sampleApp sampleLookup).1⟩

end FlaskPyQuery
